import Mathlib

/-!
Formal model of the advisor-persona manager in `src/aider/advisors.py`.

The Python module is glue between a filesystem, a user-facing IO object and
an external LLM "Coder" collaborator.  The embedding below replaces each
LLM round trip by a `String` parameter holding the reply of that session,
and replaces the IO object and the filesystem by an explicit event trace
and an explicit filesystem state.  The JSON decoding performed by
`json.loads` and the regex fallback `re.search(r'(\x7b.*\x7d)', content,
re.DOTALL)` are modelled by an executable JSON parser (`json_loads`) and
by `extractBraces`, which captures the leftmost-greedy semantics of that
pattern: the match runs from the first opening brace to the last closing
brace of the whole text.
-/

/-- JSON values as produced by `json.loads`.  Numbers keep their source
lexeme; only zero-ness is ever observed (Python truthiness). -/
inductive Json where
  | null
  | bool (b : Bool)
  | num (lexeme : String)
  | str (s : String)
  | arr (elems : List Json)
  | obj (fields : List (String × Json))

/-- Python exceptions that can escape the modelled functions. -/
inductive PyErr where
  | jsonDecodeError (source : String)
  | attributeError (attr : String)
  | typeError (what : String)
  | ioError (msg : String)
deriving Repr, DecidableEq

/-- Observable actions of the module: messages through the IO object and
filesystem operations. -/
inductive Event where
  | toolOutput (msg : String)
  | toolError (msg : String)
  | confirmAsk (msg : String) (answer : Bool)
  | fsExistsCheck (path : String) (result : Bool)
  | fsMakedirs (dir : String)
  | fsWrite (path : String) (content : String)
  | fsRead (path : String)
deriving Repr, DecidableEq

/-- The opening brace character. -/
def obChar : Char := '\x7b'

/-- The closing brace character. -/
def cbChar : Char := '\x7d'

/-- JSON insignificant whitespace. -/
def isJsonWs (c : Char) : Bool := c == ' ' || c == '\t' || c == '\n' || c == '\r'

/-- Skip insignificant whitespace. -/
def skipWs (cs : List Char) : List Char := cs.dropWhile isJsonWs

/-- Hexadecimal digit value, if any. -/
def hexVal (c : Char) : Option Nat :=
  if '0' ≤ c ∧ c ≤ '9' then some (c.toNat - '0'.toNat)
  else if 'a' ≤ c ∧ c ≤ 'f' then some (c.toNat - 'a'.toNat + 10)
  else if 'A' ≤ c ∧ c ≤ 'F' then some (c.toNat - 'A'.toNat + 10)
  else none

/-- Parse the body of a JSON string literal, the opening quote already
consumed; returns the decoded characters and the remaining input.
Unescaped control characters are rejected, as in strict-mode `json.loads`. -/
def parseStringAux : Nat → List Char → Option (List Char × List Char)
  | 0, _ => none
  | _ + 1, [] => none
  | fuel + 1, c :: cs =>
    if c == '"' then some ([], cs)
    else if c == '\\' then
      match cs with
      | [] => none
      | e :: cs2 =>
        if e == '"' then (parseStringAux fuel cs2).map (fun p => ('"' :: p.1, p.2))
        else if e == '\\' then (parseStringAux fuel cs2).map (fun p => ('\\' :: p.1, p.2))
        else if e == '/' then (parseStringAux fuel cs2).map (fun p => ('/' :: p.1, p.2))
        else if e == 'b' then (parseStringAux fuel cs2).map (fun p => (Char.ofNat 8 :: p.1, p.2))
        else if e == 'f' then (parseStringAux fuel cs2).map (fun p => (Char.ofNat 12 :: p.1, p.2))
        else if e == 'n' then (parseStringAux fuel cs2).map (fun p => ('\n' :: p.1, p.2))
        else if e == 'r' then (parseStringAux fuel cs2).map (fun p => ('\r' :: p.1, p.2))
        else if e == 't' then (parseStringAux fuel cs2).map (fun p => ('\t' :: p.1, p.2))
        else if e == 'u' then
          match cs2 with
          | h1 :: h2 :: h3 :: h4 :: cs3 =>
            match hexVal h1, hexVal h2, hexVal h3, hexVal h4 with
            | some v1, some v2, some v3, some v4 =>
              (parseStringAux fuel cs3).map
                (fun p => (Char.ofNat (((v1 * 16 + v2) * 16 + v3) * 16 + v4) :: p.1, p.2))
            | _, _, _, _ => none
          | _ => none
        else none
    else if c.toNat < 32 then none
    else (parseStringAux fuel cs).map (fun p => (c :: p.1, p.2))

/-- Split off a maximal run of decimal digits. -/
def takeDigits (cs : List Char) : List Char × List Char :=
  (cs.takeWhile Char.isDigit, cs.dropWhile Char.isDigit)

/-- Integer part of a JSON number: `0` or a nonzero digit followed by digits. -/
def parseIntPart : List Char → Option (List Char × List Char)
  | [] => none
  | c :: cs =>
    if c == '0' then some (['0'], cs)
    else if c.isDigit then
      match takeDigits cs with
      | (ds, r) => some (c :: ds, r)
    else none

/-- Optional fraction part of a JSON number. -/
def parseFracPart (cs : List Char) : Option (List Char × List Char) :=
  match cs with
  | '.' :: cs2 =>
    match takeDigits cs2 with
    | ([], _) => none
    | (ds, r) => some ('.' :: ds, r)
  | _ => some ([], cs)

/-- Optional exponent part of a JSON number. -/
def parseExpPart (cs : List Char) : Option (List Char × List Char) :=
  match cs with
  | e :: cs2 =>
    if e == 'e' || e == 'E' then
      let signAndRest : List Char × List Char :=
        match cs2 with
        | c :: r => if c == '+' || c == '-' then ([c], r) else ([], cs2)
        | [] => ([], cs2)
      match takeDigits signAndRest.2 with
      | ([], _) => none
      | (ds, r) => some (e :: signAndRest.1 ++ ds, r)
    else some ([], cs)
  | [] => some ([], cs)

/-- Parse a JSON number lexeme. -/
def parseNumber (cs : List Char) : Option (String × List Char) :=
  let signAndRest : List Char × List Char :=
    match cs with
    | '-' :: r => (['-'], r)
    | _ => ([], cs)
  match parseIntPart signAndRest.2 with
  | none => none
  | some (ip, cs2) =>
    match parseFracPart cs2 with
    | none => none
    | some (fp, cs3) =>
      match parseExpPart cs3 with
      | none => none
      | some (ep, cs4) => some (String.mk (signAndRest.1 ++ ip ++ fp ++ ep), cs4)

mutual

/-- Fuel-indexed recursive-descent parser for one JSON value. -/
def parseVal : Nat → List Char → Option (Json × List Char)
  | 0, _ => none
  | fuel + 1, cs =>
    match skipWs cs with
    | [] => none
    | c :: rest =>
      if c == '"' then
        (parseStringAux (rest.length + 1) rest).map (fun p => (Json.str (String.mk p.1), p.2))
      else if c == obChar then parseObjBody fuel rest
      else if c == '[' then parseArrBody fuel rest
      else
        match c :: rest with
        | 't' :: 'r' :: 'u' :: 'e' :: r => some (Json.bool true, r)
        | 'f' :: 'a' :: 'l' :: 's' :: 'e' :: r => some (Json.bool false, r)
        | 'n' :: 'u' :: 'l' :: 'l' :: r => some (Json.null, r)
        | cs2 => (parseNumber cs2).map (fun p => (Json.num p.1, p.2))

/-- Parse the inside of a JSON object, the opening brace already consumed. -/
def parseObjBody : Nat → List Char → Option (Json × List Char)
  | 0, _ => none
  | fuel + 1, cs =>
    match skipWs cs with
    | [] => none
    | c :: rest =>
      if c == cbChar then some (Json.obj [], rest)
      else (parseMembers fuel (c :: rest)).map (fun p => (Json.obj p.1, p.2))

/-- Parse one or more `"key": value` members followed by the closing brace. -/
def parseMembers : Nat → List Char → Option (List (String × Json) × List Char)
  | 0, _ => none
  | fuel + 1, cs =>
    match skipWs cs with
    | [] => none
    | c :: rest =>
      if c == '"' then
        match parseStringAux (rest.length + 1) rest with
        | none => none
        | some (key, cs2) =>
          match skipWs cs2 with
          | ':' :: cs3 =>
            match parseVal fuel cs3 with
            | none => none
            | some (v, cs4) =>
              match skipWs cs4 with
              | ',' :: cs5 =>
                (parseMembers fuel cs5).map (fun p => ((String.mk key, v) :: p.1, p.2))
              | c2 :: cs5 =>
                if c2 == cbChar then some ([(String.mk key, v)], cs5) else none
              | [] => none
          | _ => none
      else none

/-- Parse the inside of a JSON array, the opening bracket already consumed. -/
def parseArrBody : Nat → List Char → Option (Json × List Char)
  | 0, _ => none
  | fuel + 1, cs =>
    match skipWs cs with
    | [] => none
    | c :: rest =>
      if c == ']' then some (Json.arr [], rest)
      else (parseElems fuel (c :: rest)).map (fun p => (Json.arr p.1, p.2))

/-- Parse one or more array elements followed by the closing bracket. -/
def parseElems : Nat → List Char → Option (List Json × List Char)
  | 0, _ => none
  | fuel + 1, cs =>
    match parseVal fuel cs with
    | none => none
    | some (v, cs2) =>
      match skipWs cs2 with
      | ',' :: cs3 => (parseElems fuel cs3).map (fun p => (v :: p.1, p.2))
      | ']' :: cs3 => some ([v], cs3)
      | _ => none

end

/-- Model of `json.loads`: parse one JSON document and require that only
whitespace remains. -/
def json_loads (s : String) : Option Json :=
  match parseVal (2 * s.length + 2) s.data with
  | some (v, rest) => if (skipWs rest).isEmpty then some v else none
  | none => none

/-- Model of `re.search(r'(\x7b.*\x7d)', content, re.DOTALL)`: the greedy
group runs from the first opening brace to the last closing brace that
follows it; `none` when no such span exists. -/
def extractBraces (s : String) : Option String :=
  match s.data.dropWhile (fun c => c != obChar) with
  | [] => none
  | c :: cs =>
    match cs.reverse.dropWhile (fun c => c != cbChar) with
    | [] => none
    | ds => some (String.mk (c :: ds.reverse))

/-- Model of `dict.get` on the parsed object: last binding of a key wins,
as in a Python dict literal with duplicate keys. -/
def dictGet (fields : List (String × Json)) (key : String) : Option Json :=
  List.lookup key fields.reverse

/-- Zero test on a JSON number lexeme: true when the mantissa has no
nonzero digit. -/
def numIsZero (lexeme : String) : Bool :=
  (lexeme.data.takeWhile (fun c => c != 'e' && c != 'E')).all
    (fun c => !c.isDigit || c == '0')

/-- Python truthiness of a decoded JSON value. -/
def jsonTruthy : Json → Bool
  | Json.null => false
  | Json.bool b => b
  | Json.num lx => !(numIsZero lx)
  | Json.str s => !(s == "")
  | Json.arr xs => !(xs.isEmpty)
  | Json.obj fields => !(fields.isEmpty)

/-- Single-quoted rendering used by the Python repr of strings. -/
def pyReprStr (s : String) : String := "\x27" ++ s ++ "\x27"

/-- Fuel-indexed model of the Python repr of a decoded JSON value. -/
def pyReprFuel : Nat → Json → String
  | _, Json.null => "None"
  | _, Json.bool true => "True"
  | _, Json.bool false => "False"
  | _, Json.num lx => lx
  | _, Json.str s => pyReprStr s
  | 0, _ => "..."
  | fuel + 1, Json.arr xs =>
    "[" ++ String.intercalate ", " (xs.map (pyReprFuel fuel)) ++ "]"
  | fuel + 1, Json.obj fields =>
    "\x7b" ++
      String.intercalate ", "
        (fields.map (fun kv => pyReprStr kv.1 ++ ": " ++ pyReprFuel fuel kv.2)) ++
      "\x7d"

/-- Model of `str(value)` as used inside f-strings. -/
def pyStr : Json → String
  | Json.str s => s
  | j => pyReprFuel 1000 j

/-- Model of `str.title()` for ASCII text: the first letter of each
alphabetic run is uppercased, the following letters are lowercased. -/
def pyTitleAux : Bool → List Char → List Char
  | _, [] => []
  | prevAlpha, c :: cs =>
    if c.isAlpha then
      (if prevAlpha then c.toLower else c.toUpper) :: pyTitleAux true cs
    else
      c :: pyTitleAux false cs

/-- Model of `str.title()`. -/
def pyTitle (s : String) : String := String.mk (pyTitleAux false s.data)

/-- Model of `os.path.dirname` for POSIX paths: everything up to the last
slash, with trailing slashes stripped unless the head is all slashes. -/
def dirname (p : String) : String :=
  let revHead := p.data.reverse.dropWhile (fun c => c != '/')
  match revHead with
  | [] => ""
  | _ =>
    if revHead.all (fun c => c == '/') then String.mk revHead.reverse
    else String.mk ((revHead.dropWhile (fun c => c == '/')).reverse)

/-- Filesystem state: regular files with their text content, plus the set
of directories. -/
structure FS where
  files : List (String × String)
  dirs : List String
deriving Repr, DecidableEq

/-- Result of a stateful call: final filesystem, emitted events in order,
and either a returned value or a propagated Python exception. -/
structure Outcome (α : Type) where
  fs : FS
  events : List Event
  res : Except PyErr α
deriving Repr

/-- Model of `os.path.exists`. -/
def fsExists (fs : FS) (p : String) : Bool :=
  fs.files.any (fun kv => kv.1 == p) || fs.dirs.any (fun d => d == p)

/-- Overwrite-or-create a file in the files map. -/
def setFile (files : List (String × String)) (p c : String) : List (String × String) :=
  (p, c) :: files.filter (fun kv => kv.1 != p)

/-- Conversation messages (`\x7b"role": ..., "content": ...\x7d` dicts in the source). -/
structure Message where
  role : String
  content : String
deriving Repr, DecidableEq

/-- Status line printed at the start of `identify_persona`. -/
def analyzingMsg : String := "Analyzing your question to find the right advisor persona..."

/-- Error line printed when both JSON parses fail and no braces are found. -/
def parseErrorMsg (detail : String) : String := "Error parsing persona information: " ++ detail

/-- Error line printed when the classifier suggested no file. -/
def noPersonaMsg : String := "The LLM couldn\x27t identify or suggest a persona file."

/-- Extraction of `persona_type` and `suggested_file` from the decoded
reply, lines 93-94 of the source: `persona_info.get("persona_type",
"advisor")` and `persona_info.get("suggested_file")`.  On a non-dict
value, attribute lookup of `get` raises `AttributeError`. -/
def personaFromJson (j : Json) : Except PyErr (Json × Json) :=
  match j with
  | Json.obj fields =>
    Except.ok ((dictGet fields "persona_type").getD (Json.str "advisor"),
               (dictGet fields "suggested_file").getD Json.null)
  | _ => Except.error (PyErr.attributeError "get")

/-- Model of `AdvisorManager.identify_persona` (lines 20-101).  The
classification prompt built from `question` goes to the external Coder
session; `reply` is the textual content of that session answer.  Returns
the emitted events and either the `(persona_type, suggested_file)` pair
or the propagated exception. -/
def identify_persona (question reply : String) : List Event × Except PyErr (Json × Json) :=
  let _ := question
  let ev0 : List Event := [Event.toolOutput analyzingMsg]
  match json_loads reply with
  | some info => (ev0, personaFromJson info)
  | none =>
    match extractBraces reply with
    | some sub =>
      match json_loads sub with
      | some info => (ev0, personaFromJson info)
      | none => (ev0, Except.error (PyErr.jsonDecodeError sub))
    | none =>
      (ev0 ++ [Event.toolError (parseErrorMsg "JSONDecodeError"),
               Event.toolOutput "Response content:",
               Event.toolOutput reply],
       Except.error (PyErr.jsonDecodeError reply))

/-- Content written by `create_persona`: the generated title line, a blank
line, then the model reply (lines 158-160). -/
def personaFileBody (persona_type reply : String) : String :=
  "# " ++ pyTitle persona_type ++ " Advisor Persona\n\n" ++ reply

/-- Model of `AdvisorManager.create_persona` (lines 103-164).  The
persona-authoring prompt goes to the external Coder session; `reply` is
that session answer.  `os.makedirs(os.path.dirname(file_path),
exist_ok=True)` raises `FileNotFoundError` when the dirname is empty, so
nothing is written for a bare filename; otherwise the directory is
ensured and the titled body is written, and the model reply (not the
whole file body) is returned. -/
def create_persona (persona_type file_path question reply : String) (fs : FS) : Outcome String :=
  let _ := question
  let ev0 : List Event :=
    [Event.toolOutput ("Creating new " ++ persona_type ++ " advisor persona...")]
  let d := dirname file_path
  if d == "" then
    ⟨fs, ev0 ++ [Event.fsMakedirs d],
     Except.error (PyErr.ioError "No such file or directory")⟩
  else
    let body := personaFileBody persona_type reply
    let fs1 : FS := ⟨setFile fs.files file_path body,
                     if fs.dirs.contains d then fs.dirs else d :: fs.dirs⟩
    ⟨fs1,
     ev0 ++ [Event.fsMakedirs d, Event.fsWrite file_path body,
             Event.toolOutput ("Created new persona file at: " ++ file_path)],
     Except.ok reply⟩

/-- Model of `AdvisorManager.get_persona_content` (lines 166-184): read
the file, swallowing a missing file or any other read error into `none`
after reporting it. -/
def get_persona_content (fs : FS) (path : String) : List Event × Option String :=
  match fs.files.lookup path with
  | some c => ([Event.fsRead path], some c)
  | none =>
    if fs.dirs.any (fun d => d == path) then
      ([Event.fsRead path, Event.toolError ("Error reading persona file: " ++ path)], none)
    else
      ([Event.fsRead path, Event.toolError ("Persona file not found: " ++ path)], none)

/-- Model of `AdvisorManager.create_advice_prompt` (lines 186-207). -/
def create_advice_prompt (persona_content question : String) : String :=
  "\nYou are an advisor with the following persona:\n\n" ++ persona_content ++
  "\n\nPlease answer this question from the perspective of your persona:\n\n" ++ question ++
  "\n\nProvide a thoughtful, detailed response that reflects your expertise and perspective as described in your persona.\n"

/-- The synthetic user entry appended to the shared history (line 248). -/
def adviceUserEntry (persona_type advice : String) : Message :=
  ⟨"user", "Advice from " ++ persona_type ++ " advisor persona:\n\n" ++ advice⟩

/-- The synthetic assistant acknowledgment appended to the shared history
(line 249). -/
def adviceAck : Message := ⟨"assistant", "I\x27ve provided advice based on the requested persona."⟩

/-- Model of `AdvisorManager.generate_advice` (lines 209-252).  The
role-play prompt goes to a temporary Coder session; `reply` is that
session answer (the advice).  Returns the emitted events, the updated
shared conversation history `self.coder.cur_messages`, and the advice. -/
def generate_advice (persona_content persona_type question reply : String)
    (cur_messages : List Message) : List Event × List Message × String :=
  let _ := create_advice_prompt persona_content question
  ([Event.toolOutput ("Generating advice from the " ++ persona_type ++ " advisor persona...")],
   cur_messages ++ [adviceUserEntry persona_type reply, adviceAck],
   reply)

/-- Model of `AdvisorManager.get_persona` (lines 254-291).  `classifyReply`
and `createReply` stand for the replies of the two Coder sessions;
`confirmAnswer` is the user answer to the creation confirmation.  The
non-string-`persona_type` creation path is collapsed to the
`AttributeError` that `persona_type.title()` would raise, and a truthy
non-string `suggested_file` raises the `TypeError` of `os.path.exists`. -/
def get_persona (question classifyReply createReply : String) (confirmAnswer : Bool)
    (fs : FS) : Outcome (Option String × Option Json) :=
  match identify_persona question classifyReply with
  | (ev1, Except.error e) => ⟨fs, ev1, Except.error e⟩
  | (ev1, Except.ok (ptype, sfile)) =>
    if jsonTruthy sfile = false then
      ⟨fs, ev1 ++ [Event.toolError noPersonaMsg], Except.ok (none, none)⟩
    else
      match sfile with
      | Json.str path =>
        let ex := fsExists fs path
        let ev2 := ev1 ++ [Event.fsExistsCheck path ex]
        if ex then
          let ev3 := ev2 ++ [Event.toolOutput
            ("Found suitable " ++ pyStr ptype ++ " advisor persona in: " ++ path)]
          match get_persona_content fs path with
          | (evR, none) => ⟨fs, ev3 ++ evR, Except.ok (none, none)⟩
          | (evR, some c) =>
            if c == "" then ⟨fs, ev3 ++ evR, Except.ok (none, none)⟩
            else ⟨fs, ev3 ++ evR, Except.ok (some c, some ptype)⟩
        else
          let ev3 := ev2 ++
            [Event.toolOutput ("No existing " ++ pyStr ptype ++ " advisor persona found."),
             Event.toolOutput ("Suggested creating new persona at: " ++ path),
             Event.confirmAsk ("Create new " ++ pyStr ptype ++ " advisor persona?") confirmAnswer]
          if confirmAnswer = false then
            ⟨fs, ev3 ++ [Event.toolOutput "Persona creation cancelled."], Except.ok (none, none)⟩
          else
            match ptype with
            | Json.str pts =>
              match create_persona pts path question createReply fs with
              | ⟨fs2, evC, Except.error e⟩ => ⟨fs2, ev3 ++ evC, Except.error e⟩
              | ⟨fs2, evC, Except.ok c⟩ =>
                if c == "" then ⟨fs2, ev3 ++ evC, Except.ok (none, none)⟩
                else ⟨fs2, ev3 ++ evC, Except.ok (some c, some ptype)⟩
            | _ => ⟨fs, ev3, Except.error (PyErr.attributeError "title")⟩
      | _ => ⟨fs, ev1, Except.error (PyErr.typeError "os.path.exists")⟩

/-- Events that create or modify filesystem entries. -/
def isWriteEvent : Event → Bool
  | Event.fsWrite _ _ => true
  | Event.fsMakedirs _ => true
  | _ => false

/-- Any filesystem operation, existence checks and reads included. -/
def isFsEvent : Event → Bool
  | Event.fsWrite _ _ => true
  | Event.fsMakedirs _ => true
  | Event.fsRead _ => true
  | Event.fsExistsCheck _ _ => true
  | _ => false

/-- True when the trace contains no write or makedirs event. -/
def noWrites (evs : List Event) : Bool := evs.all (fun e => !(isWriteEvent e))

/-- True when the trace contains no filesystem event at all. -/
def noFsEvents (evs : List Event) : Bool := evs.all (fun e => !(isFsEvent e))

/-- True when the trace contains no reported error. -/
def noToolErrors (evs : List Event) : Bool :=
  evs.all (fun e => match e with | Event.toolError _ => false | _ => true)

/-- Dropping over an appended list skips a block whose elements all satisfy
the predicate. -/
theorem dropWhile_append_all {p : Char → Bool} {l1 : List Char} (l2 : List Char)
    (h : ∀ c ∈ l1, p c = true) :
    (l1 ++ l2).dropWhile p = l2.dropWhile p := by
  induction l1 with
  | nil => rfl
  | cons a t ih =>
    rw [List.cons_append, List.dropWhile_cons, h a (List.mem_cons_self a t), if_pos rfl]
    exact ih (fun c hc => h c (List.mem_cons_of_mem a hc))

/-- A successful association-list lookup provides a key match. -/
theorem lookup_any_key {l : List (String × String)} {p c : String}
    (h : List.lookup p l = some c) : l.any (fun kv => kv.1 == p) = true := by
  induction l with
  | nil => simp [List.lookup] at h
  | cons kv t ih =>
    simp only [List.any_cons, Bool.or_eq_true]
    cases hpk : p == kv.1 with
    | true =>
      left
      exact beq_iff_eq.mpr (beq_iff_eq.mp hpk).symm
    | false =>
      right
      apply ih
      simpa [List.lookup, hpk] using h

/-- The event trace of `identify_persona` is one of two shapes: the lone
status line, or the status line followed by the parse-error report. -/
theorem identify_persona_events (q r : String) :
    (identify_persona q r).1 = [Event.toolOutput analyzingMsg] ∨
    (identify_persona q r).1 =
      [Event.toolOutput analyzingMsg, Event.toolError (parseErrorMsg "JSONDecodeError"),
       Event.toolOutput "Response content:", Event.toolOutput r] := by
  unfold identify_persona
  dsimp only
  split
  · left; rfl
  · split
    · split
      · left; rfl
      · left; rfl
    · right; rfl

/-- `identify_persona` performs no filesystem operation. -/
theorem identify_persona_noFsEvents (q r : String) :
    noFsEvents (identify_persona q r).1 = true := by
  rcases identify_persona_events q r with h | h <;> rw [h] <;> rfl

/-- A trace with no filesystem event has no write event. -/
theorem noWrites_of_noFsEvents {evs : List Event} (h : noFsEvents evs = true) :
    noWrites evs = true := by
  simp only [noFsEvents, List.all_eq_true] at h
  simp only [noWrites, List.all_eq_true]
  intro e he
  have h2 := h e he
  cases e <;> simp_all [isFsEvent, isWriteEvent]

/-- `noWrites` distributes over append. -/
theorem noWrites_append (a b : List Event) :
    noWrites (a ++ b) = (noWrites a && noWrites b) := by
  simp [noWrites, List.all_append]

/-- The loader emits only a read and possibly an error report. -/
theorem get_persona_content_noWrites (fs : FS) (p : String) :
    noWrites (get_persona_content fs p).1 = true := by
  unfold get_persona_content
  cases fs.files.lookup p with
  | some c => rfl
  | none =>
    by_cases h : fs.dirs.any (fun d => d == p) = true
    · rw [if_pos h]; rfl
    · rw [if_neg h]; rfl

/-- Claim C1, amended statement: for a path with a non-empty parent directory,
`create_persona` writes the generated title line, a blank line and the
model reply to the file, and returns the model reply alone (not the full
written content). -/
theorem create_persona_writes_title_and_returns_reply
    (pt path q reply : String) (fs : FS) (hd : dirname path ≠ "") :
    (create_persona pt path q reply fs).fs.files.lookup path =
      some ("# " ++ pyTitle pt ++ " Advisor Persona\n\n" ++ reply) ∧
    (create_persona pt path q reply fs).res = Except.ok reply := by
  have hb : (dirname path == "") = false := beq_eq_false_iff_ne.mpr hd
  simp only [create_persona, hb, Bool.false_eq_true, if_false]
  simp [setFile, personaFileBody, List.lookup_cons]

/-- Claim C1, counterexample to the claim as stated: at a concrete input the
written file content carries the title line but the returned value is the
bare model reply, so the return value is not the full written content. -/
theorem create_persona_return_value_differs_from_written_content :
    (create_persona "security" "personas/security.md" "q" "REPLY" ⟨[], []⟩).fs.files.lookup
        "personas/security.md" = some "# Security Advisor Persona\n\nREPLY" ∧
    (create_persona "security" "personas/security.md" "q" "REPLY" ⟨[], []⟩).res =
        Except.ok "REPLY" ∧
    "REPLY" ≠ "# Security Advisor Persona\n\nREPLY" :=
  ⟨rfl, rfl, by decide⟩

/-- Claim C1 witness: the amended theorem applied at a concrete input. -/
theorem create_persona_writes_title_and_returns_reply_instance :
    dirname "personas/security.md" ≠ "" ∧
    ((create_persona "security" "personas/security.md" "q" "REPLY" ⟨[], []⟩).fs.files.lookup
        "personas/security.md" =
      some ("# " ++ pyTitle "security" ++ " Advisor Persona\n\n" ++ "REPLY") ∧
    (create_persona "security" "personas/security.md" "q" "REPLY" ⟨[], []⟩).res =
        Except.ok "REPLY") :=
  ⟨by decide,
   create_persona_writes_title_and_returns_reply "security" "personas/security.md" "q" "REPLY"
     ⟨[], []⟩ (by decide)⟩

/-- Claim C7: the persona file body written by `create_persona`, read back by
`get_persona_content` at the same path, is byte-identical to what the
write event recorded. -/
theorem create_persona_roundtrip_read_back
    (pt path q reply : String) (fs : FS) (hd : dirname path ≠ "") :
    (get_persona_content (create_persona pt path q reply fs).fs path).2 =
      some (personaFileBody pt reply) ∧
    Event.fsWrite path (personaFileBody pt reply) ∈ (create_persona pt path q reply fs).events := by
  have hb : (dirname path == "") = false := beq_eq_false_iff_ne.mpr hd
  simp only [create_persona, hb, Bool.false_eq_true, if_false]
  constructor
  · unfold get_persona_content
    simp [setFile, List.lookup_cons]
  · simp

/-- Claim C7 witness: the round-trip theorem applied at a concrete input. -/
theorem create_persona_roundtrip_read_back_instance :
    dirname "personas/security.md" ≠ "" ∧
    ((get_persona_content (create_persona "security" "personas/security.md" "q" "R" ⟨[], []⟩).fs
        "personas/security.md").2 = some (personaFileBody "security" "R") ∧
     Event.fsWrite "personas/security.md" (personaFileBody "security" "R") ∈
       (create_persona "security" "personas/security.md" "q" "R" ⟨[], []⟩).events) :=
  ⟨by decide,
   create_persona_roundtrip_read_back "security" "personas/security.md" "q" "R" ⟨[], []⟩
     (by decide)⟩

/-- Claim C8: `generate_advice` returns the shared history extended with exactly
two entries, in order: the user-role entry quoting the advice prefixed by
the persona type, then the assistant-role acknowledgment; the prior
entries are untouched. -/
theorem generate_advice_appends_two_entries
    (pc pt q reply : String) (hist : List Message) :
    (generate_advice pc pt q reply hist).2.1 =
      hist ++ [⟨"user", "Advice from " ++ pt ++ " advisor persona:\n\n" ++ reply⟩,
               ⟨"assistant", "I\x27ve provided advice based on the requested persona."⟩] ∧
    (generate_advice pc pt q reply hist).2.2 = reply :=
  ⟨rfl, rfl⟩

/-- Events that write a regular file. -/
def isFileWriteEvent : Event → Bool
  | Event.fsWrite _ _ => true
  | _ => false

/-- Claim C10: a bare filename has an empty dirname, so the `os.makedirs` call
raises before any file is written, and `create_persona` can only succeed
when the path has a non-empty parent directory component. -/
theorem create_persona_bare_filename_raises_before_write
    (pt path q reply : String) (fs : FS) (hne : path ≠ "") :
    (dirname path = "" →
      (create_persona pt path q reply fs).res =
          Except.error (PyErr.ioError "No such file or directory") ∧
      (create_persona pt path q reply fs).fs = fs ∧
      (create_persona pt path q reply fs).events.all (fun e => !(isFileWriteEvent e)) = true) ∧
    (∀ c, (create_persona pt path q reply fs).res = Except.ok c → dirname path ≠ "") := by
  constructor
  · intro hd
    have hb : (dirname path == "") = true := beq_iff_eq.mpr hd
    simp [create_persona, hb, isFileWriteEvent]
  · intro c hc hd
    have hb : (dirname path == "") = true := beq_iff_eq.mpr hd
    simp only [create_persona, hb, if_true] at hc
    simp at hc

/-- Claim C10 witness: the theorem applied at the concrete bare filename. -/
theorem create_persona_bare_filename_raises_before_write_instance :
    "persona.md" ≠ "" ∧
    ((dirname "persona.md" = "" →
      (create_persona "security" "persona.md" "q" "R" ⟨[], []⟩).res =
          Except.error (PyErr.ioError "No such file or directory") ∧
      (create_persona "security" "persona.md" "q" "R" ⟨[], []⟩).fs = ⟨[], []⟩ ∧
      (create_persona "security" "persona.md" "q" "R" ⟨[], []⟩).events.all
          (fun e => !(isFileWriteEvent e)) = true) ∧
    (∀ c, (create_persona "security" "persona.md" "q" "R" ⟨[], []⟩).res = Except.ok c →
      dirname "persona.md" ≠ "")) :=
  ⟨by decide,
   create_persona_bare_filename_raises_before_write "security" "persona.md" "q" "R" ⟨[], []⟩
     (by decide)⟩

/-- If the text before `mid` holds no opening brace and the text after it
holds no closing brace, while `mid` starts with an opening brace and ends
with a closing one, the regex fallback captures exactly `mid`. -/
theorem extractBraces_embedded (pre post mid : String) (t2 : List Char)
    (hmid : mid.data = obChar :: (t2 ++ [cbChar]))
    (hpre : ∀ c ∈ pre.data, (c != obChar) = true)
    (hpost : ∀ c ∈ post.data, (c != cbChar) = true) :
    extractBraces (pre ++ mid ++ post) = some mid := by
  have hdata : (pre ++ mid ++ post).data = pre.data ++ (mid.data ++ post.data) := by
    rw [String.data_append, String.data_append, List.append_assoc]
  have hd1 : (pre.data ++ (mid.data ++ post.data)).dropWhile (fun c => c != obChar) =
      (mid.data ++ post.data).dropWhile (fun c => c != obChar) :=
    dropWhile_append_all _ hpre
  have hmidpost : (mid.data ++ post.data).dropWhile (fun c => c != obChar) =
      obChar :: ((t2 ++ [cbChar]) ++ post.data) := by
    rw [hmid, List.cons_append, List.dropWhile_cons]
    simp
  have hpost2 : ∀ c ∈ post.data.reverse, (c != cbChar) = true :=
    fun c hc => hpost c (List.mem_reverse.mp hc)
  have hrev : ((t2 ++ [cbChar]) ++ post.data).reverse =
      post.data.reverse ++ ((cbChar :: t2.reverse) : List Char) := by
    simp [List.reverse_append]
  have hd2 : (post.data.reverse ++ ((cbChar :: t2.reverse) : List Char)).dropWhile
      (fun c => c != cbChar) = cbChar :: t2.reverse := by
    rw [dropWhile_append_all _ hpost2, List.dropWhile_cons]
    simp
  unfold extractBraces
  rw [hdata, hd1, hmidpost]
  dsimp only
  rw [hrev, hd2]
  dsimp only
  rw [List.reverse_cons, List.reverse_reverse]
  rw [show (obChar :: (t2 ++ [cbChar]) : List Char) = mid.data from hmid.symm]

/-- The classification object of the running example. -/
def secObjText : String := "\x7b\"persona_type\":\"security\",\"suggested_file\":\"docs/x.md\"\x7d"

/-- Claim C2, amended: the reply is the security object followed by a newline,
embedded in prose; provided the prose before the object holds no opening
brace, the prose after it holds no closing brace, and the direct parse of
the whole reply fails, the regex fallback extracts the object and
`identify_persona` returns the pair `("security", "docs/x.md")`. -/
theorem regex_fallback_extracts_embedded_object
    (q pre post : String)
    (hpre : ∀ c ∈ pre.data, (c != obChar) = true)
    (hpost : ∀ c ∈ post.data, (c != cbChar) = true)
    (hfail : json_loads (pre ++ (secObjText ++ "\n") ++ post) = none) :
    (identify_persona q (pre ++ (secObjText ++ "\n") ++ post)).2 =
      Except.ok (Json.str "security", Json.str "docs/x.md") := by
  have hassoc : pre ++ (secObjText ++ "\n") ++ post = pre ++ secObjText ++ ("\n" ++ post) := by
    rw [String.append_assoc pre (secObjText ++ "\n") post,
        String.append_assoc secObjText "\n" post,
        ← String.append_assoc pre secObjText ("\n" ++ post)]
  have hpost2 : ∀ c ∈ ("\n" ++ post).data, (c != cbChar) = true := by
    intro c hc
    rw [String.data_append] at hc
    rcases List.mem_cons.mp hc with h | h
    · rw [h]; decide
    · exact hpost c h
  have hx : extractBraces (pre ++ secObjText ++ ("\n" ++ post)) = some secObjText :=
    extractBraces_embedded pre ("\n" ++ post) secObjText
      (secObjText.data.tail.dropLast) rfl hpre hpost2
  rw [hassoc] at hfail ⊢
  unfold identify_persona
  rw [hfail, hx]
  rfl

/-- Claim C2, counterexample to the claim as stated: prose after the object that
holds a closing brace makes the greedy group overshoot, the extracted
span fails to parse, and `identify_persona` raises instead of returning
the pair. -/
theorem regex_fallback_fails_on_prose_with_brace :
    json_loads ("Here is the JSON: " ++ (secObjText ++ "\n") ++ "All done\x7d") = none ∧
    (identify_persona "q" ("Here is the JSON: " ++ (secObjText ++ "\n") ++ "All done\x7d")).2 =
      Except.error (PyErr.jsonDecodeError (secObjText ++ "\nAll done\x7d")) ∧
    Except.error (PyErr.jsonDecodeError (secObjText ++ "\nAll done\x7d")) ≠
      (Except.ok (Json.str "security", Json.str "docs/x.md") : Except PyErr (Json × Json)) :=
  ⟨rfl, rfl, by intro h; exact Except.noConfusion h⟩

/-- Claim C2 witness: the amended theorem applied at concrete prose. -/
theorem regex_fallback_extracts_embedded_object_instance :
    json_loads ("Sure, here you go: " ++ (secObjText ++ "\n") ++ "Anything else?") = none ∧
    (identify_persona "q" ("Sure, here you go: " ++ (secObjText ++ "\n") ++ "Anything else?")).2 =
      Except.ok (Json.str "security", Json.str "docs/x.md") :=
  ⟨rfl,
   regex_fallback_extracts_embedded_object "q" "Sure, here you go: " "Anything else?"
     (by decide) (by decide) rfl⟩

/-- Claim C3, counterexample to the claim as stated: both the direct parse and
the regex-extraction parse fail, yet the failure propagates with no
reported error: the trace is the lone status line. -/
theorem identify_persona_raises_without_report_on_matched_garbage :
    json_loads "x \x7bnot json\x7d" = none ∧
    extractBraces "x \x7bnot json\x7d" = some "\x7bnot json\x7d" ∧
    json_loads "\x7bnot json\x7d" = none ∧
    identify_persona "q" "x \x7bnot json\x7d" =
      ([Event.toolOutput analyzingMsg], Except.error (PyErr.jsonDecodeError "\x7bnot json\x7d")) :=
  ⟨rfl, rfl, rfl, rfl⟩

/-- Claim C3, amended: when the direct parse fails and the reply holds no
brace-delimited substring at all, `identify_persona` reports the parse
error, shows the raw reply, and only then propagates the failure. -/
theorem identify_persona_reports_then_raises_when_no_match
    (q reply : String)
    (h1 : json_loads reply = none) (h2 : extractBraces reply = none) :
    identify_persona q reply =
      ([Event.toolOutput analyzingMsg, Event.toolError (parseErrorMsg "JSONDecodeError"),
        Event.toolOutput "Response content:", Event.toolOutput reply],
       Except.error (PyErr.jsonDecodeError reply)) := by
  unfold identify_persona
  rw [h1, h2]
  rfl

/-- Claim C3 witness: the amended theorem applied at a braceless garbage reply. -/
theorem identify_persona_reports_then_raises_when_no_match_instance :
    json_loads "hello" = none ∧ extractBraces "hello" = none ∧
    identify_persona "q" "hello" =
      ([Event.toolOutput analyzingMsg, Event.toolError (parseErrorMsg "JSONDecodeError"),
        Event.toolOutput "Response content:", Event.toolOutput "hello"],
       Except.error (PyErr.jsonDecodeError "hello")) :=
  ⟨rfl, rfl, identify_persona_reports_then_raises_when_no_match "q" "hello" rfl rfl⟩

/-- Claim C6: when the classifier yields a null suggested file, `get_persona`
reports the condition, returns `(none, none)`, leaves the filesystem
untouched, and performs no filesystem operation (no existence check, read
or write). -/
theorem get_persona_null_suggestion_no_file_io
    (q cr crr : String) (ans : Bool) (fs : FS) (pt : Json)
    (hid : (identify_persona q cr).2 = Except.ok (pt, Json.null)) :
    (get_persona q cr crr ans fs).res = Except.ok (none, none) ∧
    (get_persona q cr crr ans fs).fs = fs ∧
    noFsEvents (get_persona q cr crr ans fs).events = true ∧
    Event.toolError noPersonaMsg ∈ (get_persona q cr crr ans fs).events := by
  rcases hE : identify_persona q cr with ⟨evs, r⟩
  rw [hE] at hid
  simp only at hid
  subst hid
  have hnofs : noFsEvents evs = true := by
    have h := identify_persona_noFsEvents q cr
    rw [hE] at h
    exact h
  unfold get_persona
  rw [hE]
  dsimp only [jsonTruthy]
  rw [if_pos rfl]
  refine ⟨rfl, rfl, ?_, ?_⟩
  · rw [noFsEvents, List.all_append]
    rw [noFsEvents] at hnofs
    rw [hnofs]
    rfl
  · exact List.mem_append_right _ (List.mem_singleton.mpr rfl)

@[simp] theorem isWriteEvent_toolOutput (m : String) :
    isWriteEvent (Event.toolOutput m) = false := rfl

@[simp] theorem isWriteEvent_toolError (m : String) :
    isWriteEvent (Event.toolError m) = false := rfl

@[simp] theorem isWriteEvent_confirmAsk (m : String) (a : Bool) :
    isWriteEvent (Event.confirmAsk m a) = false := rfl

@[simp] theorem isWriteEvent_fsExistsCheck (p : String) (b : Bool) :
    isWriteEvent (Event.fsExistsCheck p b) = false := rfl

@[simp] theorem isWriteEvent_fsRead (p : String) :
    isWriteEvent (Event.fsRead p) = false := rfl

/-- Claim C4: when the classification suggests a file that exists, `get_persona`
leaves the filesystem untouched and its trace holds no write or
directory-creation event, so the persona creator is never run. -/
theorem get_persona_no_write_when_file_exists
    (q cr crr : String) (ans : Bool) (fs : FS) (pt : Json) (path : String)
    (hid : (identify_persona q cr).2 = Except.ok (pt, Json.str path))
    (hex : fsExists fs path = true) :
    (get_persona q cr crr ans fs).fs = fs ∧
    noWrites (get_persona q cr crr ans fs).events = true := by
  rcases hE : identify_persona q cr with ⟨evs, r⟩
  rw [hE] at hid
  simp only at hid
  subst hid
  have hnw : noWrites evs = true :=
    noWrites_of_noFsEvents (by have h := identify_persona_noFsEvents q cr; rw [hE] at h; exact h)
  have hnwG : noWrites (get_persona_content fs path).1 = true :=
    get_persona_content_noWrites fs path
  rcases hG : get_persona_content fs path with ⟨evR, copt⟩
  rw [hG] at hnwG
  rw [noWrites] at hnw hnwG
  unfold get_persona
  rw [hE]
  by_cases hp : path = ""
  · subst hp
    constructor
    · simp [jsonTruthy]
    · simp [jsonTruthy, noWrites, List.all_append, hnw]
  · cases copt with
    | none =>
      constructor
      · simp [jsonTruthy, hp, hex, hG]
      · simp [jsonTruthy, hp, hex, hG, noWrites, List.all_append, hnw, hnwG]
    | some c =>
      by_cases hc : c = ""
      · subst hc
        constructor
        · simp [jsonTruthy, hp, hex, hG]
        · simp [jsonTruthy, hp, hex, hG, noWrites, List.all_append, hnw, hnwG]
      · constructor
        · simp [jsonTruthy, hp, hex, hG, hc]
        · simp [jsonTruthy, hp, hex, hG, hc, noWrites, List.all_append, hnw, hnwG]

/-- Claim C5: when the suggested file does not exist and the user declines the
creation confirmation, `get_persona` returns `(none, none)`, the
filesystem is unchanged, and no write or directory-creation event occurs. -/
theorem get_persona_declined_creation_leaves_fs_unchanged
    (q cr crr : String) (fs : FS) (pt : Json) (path : String)
    (hid : (identify_persona q cr).2 = Except.ok (pt, Json.str path))
    (hex : fsExists fs path = false) :
    (get_persona q cr crr false fs).res = Except.ok (none, none) ∧
    (get_persona q cr crr false fs).fs = fs ∧
    noWrites (get_persona q cr crr false fs).events = true := by
  rcases hE : identify_persona q cr with ⟨evs, r⟩
  rw [hE] at hid
  simp only at hid
  subst hid
  have hnw : noWrites evs = true :=
    noWrites_of_noFsEvents (by have h := identify_persona_noFsEvents q cr; rw [hE] at h; exact h)
  rw [noWrites] at hnw
  unfold get_persona
  rw [hE]
  by_cases hp : path = ""
  · subst hp
    refine ⟨?_, ?_, ?_⟩ <;> simp [jsonTruthy, noWrites, List.all_append, hnw]
  · refine ⟨?_, ?_, ?_⟩ <;> simp [jsonTruthy, hp, hex, noWrites, List.all_append, hnw]

/-- Claim C9: when the suggested file exists but is empty, the loader succeeds
and returns the empty string, yet `get_persona` returns `(none, none)`:
the orchestrator treats every falsy loaded content as a load failure. -/
theorem get_persona_empty_file_treated_as_load_failure
    (q cr crr : String) (ans : Bool) (fs : FS) (pt : Json) (path : String)
    (hid : (identify_persona q cr).2 = Except.ok (pt, Json.str path))
    (hp : path ≠ "")
    (hlook : fs.files.lookup path = some "") :
    (get_persona_content fs path).2 = some "" ∧
    (get_persona q cr crr ans fs).res = Except.ok (none, none) := by
  have hex : fsExists fs path = true := by
    simp [fsExists, lookup_any_key hlook]
  have hG : get_persona_content fs path = ([Event.fsRead path], some "") := by
    unfold get_persona_content
    rw [hlook]
  rcases hE : identify_persona q cr with ⟨evs, r⟩
  rw [hE] at hid
  simp only at hid
  subst hid
  constructor
  · rw [hG]
  · unfold get_persona
    rw [hE]
    simp [jsonTruthy, hp, hex, hG]

/-- Demo filesystem holding the suggested persona file. -/
def demoFS : FS := ⟨[("docs/x.md", "Expert in appsec.")], []⟩

/-- Demo filesystem where the suggested persona file is empty. -/
def demoEmptyFS : FS := ⟨[("docs/x.md", "")], []⟩

/-- Classification reply whose suggested file is JSON null. -/
def nullObjText : String := "\x7b\"persona_type\":\"security\",\"suggested_file\":null\x7d"

/-- Claim C4 witness: the theorem applied at a concrete classification reply and
a filesystem where the suggested file exists. -/
theorem get_persona_no_write_when_file_exists_instance :
    ((identify_persona "q" secObjText).2 =
        Except.ok (Json.str "security", Json.str "docs/x.md") ∧
     fsExists demoFS "docs/x.md" = true) ∧
    ((get_persona "q" secObjText "cr" true demoFS).fs = demoFS ∧
     noWrites (get_persona "q" secObjText "cr" true demoFS).events = true) :=
  ⟨⟨rfl, rfl⟩,
   get_persona_no_write_when_file_exists "q" secObjText "cr" true demoFS
     (Json.str "security") "docs/x.md" rfl rfl⟩

/-- Claim C5 witness: the theorem applied at a concrete reply, an empty
filesystem and a declined confirmation. -/
theorem get_persona_declined_creation_leaves_fs_unchanged_instance :
    ((identify_persona "q" secObjText).2 =
        Except.ok (Json.str "security", Json.str "docs/x.md") ∧
     fsExists ⟨[], []⟩ "docs/x.md" = false) ∧
    ((get_persona "q" secObjText "cr" false ⟨[], []⟩).res = Except.ok (none, none) ∧
     (get_persona "q" secObjText "cr" false ⟨[], []⟩).fs = ⟨[], []⟩ ∧
     noWrites (get_persona "q" secObjText "cr" false ⟨[], []⟩).events = true) :=
  ⟨⟨rfl, rfl⟩,
   get_persona_declined_creation_leaves_fs_unchanged "q" secObjText "cr" ⟨[], []⟩
     (Json.str "security") "docs/x.md" rfl rfl⟩

/-- Claim C6 witness: the theorem applied at a reply whose suggested file is
null. -/
theorem get_persona_null_suggestion_no_file_io_instance :
    ((identify_persona "q" nullObjText).2 = Except.ok (Json.str "security", Json.null)) ∧
    ((get_persona "q" nullObjText "cr" true demoFS).res = Except.ok (none, none) ∧
     (get_persona "q" nullObjText "cr" true demoFS).fs = demoFS ∧
     noFsEvents (get_persona "q" nullObjText "cr" true demoFS).events = true ∧
     Event.toolError noPersonaMsg ∈ (get_persona "q" nullObjText "cr" true demoFS).events) :=
  ⟨rfl,
   get_persona_null_suggestion_no_file_io "q" nullObjText "cr" true demoFS
     (Json.str "security") rfl⟩

/-- Claim C9 witness: the theorem applied at a filesystem where the suggested
file exists with empty content. -/
theorem get_persona_empty_file_treated_as_load_failure_instance :
    ((identify_persona "q" secObjText).2 =
        Except.ok (Json.str "security", Json.str "docs/x.md") ∧
     "docs/x.md" ≠ "" ∧ demoEmptyFS.files.lookup "docs/x.md" = some "") ∧
    ((get_persona_content demoEmptyFS "docs/x.md").2 = some "" ∧
     (get_persona "q" secObjText "cr" true demoEmptyFS).res = Except.ok (none, none)) :=
  ⟨⟨rfl, by decide, rfl⟩,
   get_persona_empty_file_treated_as_load_failure "q" secObjText "cr" true demoEmptyFS
     (Json.str "security") "docs/x.md" rfl (by decide) rfl⟩
